import Mathlib

/-! Verification development for a small Rust concurrency toolkit consisting of a
disk-backed store (src/simple_store.rs), an actor-supervision layer (src/actor.rs)
and a shutdown coordinator (src/shutdown.rs).  The Rust code is shallowly embedded:
file-system state and the shared heap cell behind the store's reference-counted
lock are threaded explicitly, fallible operations return `Except`, and the async
races (tokio select, channel backpressure) are modelled with explicit oracles for
the race outcomes.  Machine integers do not occur in the embedded fragment. -/

namespace KitchenSink

/-! ## Persisted store (src/simple_store.rs)

`Store<T>(Arc<RwLock<T>>, PathBuf)` is embedded as a `StoreRef`: the index of the
shared heap cell backing the `Arc<RwLock<T>>`, plus the backing-file path.  The
mutable state (the file system and the heap of lock cells) lives in `World` and is
passed explicitly.  Serialization (`Vec<u8>: From<&T>`) and deserialization
(`TryFrom<Vec<u8>>`) are the `Codec` capability supplied by the embedding
application.  `std::fs::read` / `std::fs::write` can fail for reasons outside the
file-system map (permissions, I/O errors); those failures are injected through a
`fault` oracle, mirroring that the Rust code matches on `Err(_)` uniformly. -/

abbrev Bytes := List Nat

abbrev PathBuf := String

structure Codec (T : Type) where
  ser : T → Bytes
  deser : Bytes → Except String T

abbrev FileSys := PathBuf → Option Bytes

def fsUpdate (fs : FileSys) (p : PathBuf) (b : Bytes) : FileSys :=
  fun q => if q = p then some b else fs q

def fsRead (fault : Bool) (fs : FileSys) (p : PathBuf) : Except String Bytes :=
  if fault then Except.error "read fault"
  else
    match fs p with
    | none => Except.error "file not found"
    | some b => Except.ok b

def fsWrite (fault : Bool) (fs : FileSys) (p : PathBuf) (b : Bytes) :
    Except String FileSys :=
  if fault then Except.error "write fault" else Except.ok (fsUpdate fs p b)

structure World (T : Type) where
  fs : FileSys
  cells : Nat → T

def setCell {T : Type} (cells : Nat → T) (i : Nat) (v : T) : Nat → T :=
  fun j => if j = i then v else cells j

structure StoreRef where
  cell : Nat
  path : PathBuf

/-- Embeds `impl Clone for Store`: `Self(self.0.clone(), self.1.clone())`.
`Arc::clone` yields a handle to the same allocation (same cell index) and
`PathBuf::clone` an equal path, so the clone is the same reference. -/
def Store.clone (s : StoreRef) : StoreRef :=
  StoreRef.mk s.cell s.path

/-- Embeds `Store::write` (simple_store.rs:80-88): serialize, persist to the
backing file with `?` (early return on failure, leaving the world untouched),
and only then swap the in-memory value under the exclusive lock. -/
def Store.write {T : Type} (c : Codec T) (wfault : Bool) (s : StoreRef)
    (new_data : T) (w : World T) : Except String Unit × World T :=
  let serialized : Bytes := c.ser new_data
  match fsWrite wfault w.fs s.path serialized with
  | Except.error e => (Except.error e, w)
  | Except.ok fs2 => (Except.ok (), World.mk fs2 (setCell w.cells s.cell new_data))

/-- Embeds `Store::read` (simple_store.rs:91-95): acquire the shared lock and
return the current in-memory value. -/
def Store.read {T : Type} (s : StoreRef) (w : World T) : T :=
  w.cells s.cell

/-- Embeds `Store::new_or_get` (simple_store.rs:36-51): try `std::fs::read`; on
any failure run the getter, persist the fresh value, and build the store; on a
successful read deserialize with `T::try_from`, propagating its error.  `fresh`
is the heap cell allocated for the new `Arc<RwLock<T>>`. -/
def Store.new_or_get {T : Type} (c : Codec T) (rfault wfault : Bool)
    (loc : PathBuf) (getter : Unit → Except String T) (w : World T)
    (fresh : Nat) : Except String (StoreRef × World T) :=
  match fsRead rfault w.fs loc with
  | Except.error _ =>
    match getter () with
    | Except.error e => Except.error e
    | Except.ok new_data =>
      match fsWrite wfault w.fs loc (c.ser new_data) with
      | Except.error e => Except.error e
      | Except.ok fs2 =>
        Except.ok (StoreRef.mk fresh loc, World.mk fs2 (setCell w.cells fresh new_data))
  | Except.ok v =>
    match c.deser v with
    | Except.error e => Except.error e
    | Except.ok data =>
      Except.ok (StoreRef.mk fresh loc, World.mk w.fs (setCell w.cells fresh data))

/-- Embeds `Store::new_with_default` (simple_store.rs:27-29): delegates to
`new_or_get` with the getter `|| Ok(T::default())`; the default value is the
`dflt` parameter. -/
def Store.new_with_default {T : Type} (c : Codec T) (dflt : T)
    (rfault wfault : Bool) (loc : PathBuf) (w : World T) (fresh : Nat) :
    Except String (StoreRef × World T) :=
  Store.new_or_get c rfault wfault loc (fun _ => Except.ok dflt) w fresh

/-- Embeds `Store::new_with_fetcher` (simple_store.rs:58-73): same shape as
`new_or_get`, except the seed value comes from `fetcher.fetch(None).await` —
the fetcher is invoked with no snapshot. -/
def Store.new_with_fetcher {T : Type} (c : Codec T) (rfault wfault : Bool)
    (loc : PathBuf) (fetcher : Option StoreRef → Except String T) (w : World T)
    (fresh : Nat) : Except String (StoreRef × World T) :=
  match fsRead rfault w.fs loc with
  | Except.error _ =>
    match fetcher none with
    | Except.error e => Except.error e
    | Except.ok new_data =>
      match fsWrite wfault w.fs loc (c.ser new_data) with
      | Except.error e => Except.error e
      | Except.ok fs2 =>
        Except.ok (StoreRef.mk fresh loc, World.mk fs2 (setCell w.cells fresh new_data))
  | Except.ok v =>
    match c.deser v with
    | Except.error e => Except.error e
    | Except.ok data =>
      Except.ok (StoreRef.mk fresh loc, World.mk w.fs (setCell w.cells fresh data))

/-- Outcome of one iteration of the `scheduled_updates` background loop:
either the iteration completed and the loop continues with the new world, or
the task panicked (the `todo!()` branch in simple_store.rs:117). -/
inductive StepResult (T : Type) where
  | ok (w : World T)
  | panicked

/-- Embeds the body of the loop spawned by `Store::scheduled_updates`
(simple_store.rs:109-120): `mvfetch.fetch(Some(mvstore.clone())).await`
chained with `.and_then(|v| mvstore.write(v))`; on `Err` the code executes
`todo!()`, which panics the background task. -/
def scheduledUpdateStep {T : Type} (c : Codec T) (wfault : Bool) (s : StoreRef)
    (w : World T) (fetcher : Option StoreRef → Except String T) : StepResult T :=
  match fetcher (some (Store.clone s)) with
  | Except.error _ => StepResult.panicked
  | Except.ok v =>
    match Store.write c wfault s v w with
    | (Except.error _, _) => StepResult.panicked
    | (Except.ok _, w2) => StepResult.ok w2

/-! ## Shutdown coordinator (src/shutdown.rs)

`ShutdownCoordinator` owns a `CancellationToken` (one logical boolean) and a
`Vec<JoinHandle<()>>` registry, embedded as a task-id list.  `wait_for_shutdown`
blocks in a `tokio::select!` over four triggers; which trigger fires is an
oracle.  After the trigger it cancels the token and iterates over
`future::join_all(self.tasks)`, logging each `Err` join result; the join result
of each registered task is supplied by the `results` oracle. -/

inductive ShutdownTrigger where
  | sigint
  | sigterm
  | ctrlC
  | programmatic

structure ShutdownCoordinator where
  tokenCancelled : Bool
  tasks : List Nat

/-- Embeds `ShutdownCoordinator::new`. -/
def ShutdownCoordinator.new : ShutdownCoordinator :=
  ShutdownCoordinator.mk false []

/-- Embeds `ShutdownCoordinator::token`: clones of a `CancellationToken` all
observe the same flag, so a clone is just the current flag state. -/
def ShutdownCoordinator.token (co : ShutdownCoordinator) : Bool :=
  co.tokenCancelled

/-- Embeds `ShutdownCoordinator::register_task`: push onto the registry. -/
def ShutdownCoordinator.register_task (co : ShutdownCoordinator) (t : Nat) :
    ShutdownCoordinator :=
  ShutdownCoordinator.mk co.tokenCancelled (co.tasks ++ [t])

/-- Embeds `CancellationToken::cancel`: sets the flag; a no-op when the token
is already cancelled. -/
def cancelToken (_before : Bool) : Bool := true

/-- Embeds the `for res in future::join_all(self.tasks).await` loop of
`wait_for_shutdown` (shutdown.rs:59-63): every join result is visited; an
`Err` is logged and the loop continues.  Returns the logged messages in order
together with the number of results processed. -/
def awaitLoop : List (Except String Unit) → List String × Nat
  | [] => ([], 0)
  | r :: rest =>
    let p := awaitLoop rest
    match r with
    | Except.error e => (e :: p.1, p.2 + 1)
    | Except.ok _ => (p.1, p.2 + 1)

def joinErr : Except String Unit → Option String
  | Except.error e => some e
  | Except.ok _ => none

structure ShutdownOutcome where
  tokenAfter : Bool
  logged : List String
  awaited : Nat

/-- Embeds `ShutdownCoordinator::wait_for_shutdown` (shutdown.rs:43-65) from
the moment one of the four triggers fires: cancel the token, then await every
registered task, logging failures.  `results` maps each registered task id to
its join result. -/
def ShutdownCoordinator.wait_for_shutdown (co : ShutdownCoordinator)
    (_trig : ShutdownTrigger) (results : Nat → Except String Unit) :
    ShutdownOutcome :=
  let p := awaitLoop (co.tasks.map results)
  ShutdownOutcome.mk (cancelToken co.tokenCancelled) p.1 p.2

/-! ## Actor supervision (src/actor.rs)

The spawned task runs `tokio::select!` between `run_actor` (a loop that recvs
and handles messages) and `completion.cancelled()`.  The select race outcome is
an oracle: `cancelAfter = some k` means cancellation preempted the consume loop
after exactly `k` messages had been handled; `none` means the consume loop ran
to completion (channel closed and drained) and the cancellation branch never
won.  The observable behaviour of the task is its event trace. -/

inductive Event (T : Type) where
  | handle (msg : T)
  | shutdownRun
  | logError (e : String)
  | terminate
deriving DecidableEq

/-- Embeds `run_actor` (actor.rs:46-50): each received message is passed to
`handle_msg` in queue order. -/
def run_actorTrace {T : Type} (queued : List T) : List (Event T) :=
  queued.map Event.handle

/-- The tail of the task trace once the cancellation branch of the select wins
(actor.rs:30-34): `actor.shutdown().await` has run; an `Err` from it is logged
via `error!` and swallowed; then the task terminates. -/
def shutdownTail (T : Type) (res : Except String Unit) : List (Event T) :=
  (match res with
   | Except.error e => [Event.logError e]
   | Except.ok _ => []) ++ [Event.terminate]

/-- Embeds the task body spawned by `ActorHandle::spawn` (actor.rs:27-36):
the select between `run_actor` and `completion.cancelled()`.  `queued` is the
sequence of messages placed in the channel, in send order. -/
def actorTask {T : Type} (queued : List T) (cancelAfter : Option Nat)
    (res : Except String Unit) : List (Event T) :=
  match cancelAfter with
  | none => run_actorTrace queued ++ [Event.terminate]
  | some k => run_actorTrace (queued.take k) ++ Event.shutdownRun :: shutdownTail T res

def isHandle {T : Type} : Event T → Bool
  | Event.handle _ => true
  | _ => false

/-- The messages a trace delivered to `handle_msg`, in order. -/
def handledMsgs {T : Type} : List (Event T) → List T
  | [] => []
  | Event.handle m :: rest => m :: handledMsgs rest
  | Event.shutdownRun :: rest => handledMsgs rest
  | Event.logError _ :: rest => handledMsgs rest
  | Event.terminate :: rest => handledMsgs rest

/-! ### Channel backpressure (tokio::sync::mpsc, capacity 8)

`ActorHandle::send` is `let _ = self.sender.send(msg).await`.  A bounded
`Sender::send` suspends while the queue is full, resumes when a permit frees or
the receiver is dropped, and returns `Err(SendError(msg))` when the receiver is
gone; the `let _ =` discards that error.  The channel state is the queue plus
whether the consumer end has closed; `sendBlocks` states when the awaited send
is still suspended. -/

def actorChannelCapacity : Nat := 8

structure Channel (T : Type) where
  queue : List T
  consumerClosed : Bool

/-- The awaited `Sender::send` is suspended exactly while the consumer is alive
and the queue is at capacity. -/
def sendBlocks {T : Type} (ch : Channel T) : Bool :=
  !ch.consumerClosed && decide (actorChannelCapacity ≤ ch.queue.length)

/-- Embeds `Sender::send` once it resumes: error carrying the message when the
consumer end has closed, otherwise the message is appended to the queue. -/
def mpscSend {T : Type} (ch : Channel T) (msg : T) : Except T (Channel T) :=
  if ch.consumerClosed then Except.error msg
  else Except.ok (Channel.mk (ch.queue ++ [msg]) ch.consumerClosed)

/-- Embeds `ActorHandle::send` (actor.rs:41-43): `let _ = sender.send(msg).await`
— the send error is discarded and the call returns normally. -/
def ActorHandle.send {T : Type} (ch : Channel T) (msg : T) : Channel T × Unit :=
  match mpscSend ch msg with
  | Except.error _ => (ch, ())
  | Except.ok ch2 => (ch2, ())

/-! ### Spawn (structural view)

For `ActorHandle::spawn` the structural facts are embedded with channel
endpoints named by a fresh channel id: `mpsc::channel(8)` returns a sender and
receiver of the same channel, the factory is applied to the receiver and a
clone of the handle, the spawned task is registered, and the handle is
returned. -/

structure Sender (T : Type) where
  chan : Nat
  capacity : Nat

structure Receiver (T : Type) where
  chan : Nat
  capacity : Nat

/-- Embeds `mpsc::channel(cap)`: a fresh channel with a sender and receiver end
of that channel. -/
def mpscChannel (T : Type) (fresh cap : Nat) : Sender T × Receiver T :=
  (Sender.mk fresh cap, Receiver.mk fresh cap)

structure ActorHandle (T : Type) where
  sender : Sender T

/-- Embeds `#[derive(Clone)]` on `ActorHandle`: clones the sender. -/
def ActorHandle.clone {T : Type} (h : ActorHandle T) : ActorHandle T :=
  ActorHandle.mk h.sender

/-- Embeds `ActorHandle::spawn` (actor.rs:19-39): create `mpsc::channel(8)`,
build the handle around the sender, apply `mk_actor` to the receiver and a
clone of the handle, spawn the task (named `freshTask`), register it with the
coordinator, and return the handle.  The returned triple is (handle, actor
value produced by the factory, updated coordinator). -/
def ActorHandle.spawn {T A : Type} (mk_actor : Receiver T → ActorHandle T → A)
    (shutdown : ShutdownCoordinator) (freshChan freshTask : Nat) :
    ActorHandle T × A × ShutdownCoordinator :=
  let p := mpscChannel T freshChan 8
  let handle := ActorHandle.mk p.1
  let actor := mk_actor p.2 (ActorHandle.clone handle)
  let shutdown2 := ShutdownCoordinator.register_task shutdown freshTask
  (handle, actor, shutdown2)

/-! ## Concrete instances used by witnesses and counterexamples -/

def cNat : Codec Nat :=
  Codec.mk (fun n => [n])
    (fun b =>
      match b with
      | [n] => Except.ok n
      | _ => Except.error "bad bytes")

def w0 : World Nat := World.mk (fun _ => none) (fun _ => 0)

def wBad : World Nat :=
  World.mk (fun q => if q = "p" then some [1, 2] else none) (fun _ => 0)

def st0 : StoreRef := StoreRef.mk 0 "store.bin"

/-! ## Helper lemmas (shared across claims) -/

theorem awaitLoop_spec (l : List (Except String Unit)) :
    awaitLoop l = (l.filterMap joinErr, l.length) := by
  induction l with
  | nil => rfl
  | cons r rest ih =>
    cases r with
    | error e => simp [awaitLoop, joinErr, ih, List.filterMap_cons]
    | ok u => simp [awaitLoop, joinErr, ih, List.filterMap_cons]

theorem handledMsgs_append {T : Type} (a b : List (Event T)) :
    handledMsgs (a ++ b) = handledMsgs a ++ handledMsgs b := by
  induction a with
  | nil => rfl
  | cons e t ih => cases e <;> simp [handledMsgs, ih]

theorem handledMsgs_map_handle {T : Type} (l : List T) :
    handledMsgs (l.map Event.handle) = l := by
  induction l with
  | nil => rfl
  | cons a t ih => simp [handledMsgs, ih]

theorem handledMsgs_shutdownTail {T : Type} (res : Except String Unit) :
    handledMsgs (Event.shutdownRun :: shutdownTail T res) = [] := by
  cases res <;> rfl

/-! ## Claims -/

/-- Claim C1: for every store and every value v, `Store::write(v)` first
serializes v and persists it to the backing file, and only then swaps the
in-memory value under the exclusive lock; if the disk write fails, `write`
returns an error and the whole world — in particular the in-memory value —
is left unchanged; if it succeeds, the backing file holds the serialized
bytes of v and the in-memory cell holds v. -/
theorem c1_write_disk_before_memory (T : Type) (c : Codec T) (s : StoreRef)
    (v : T) (w : World T) :
    ((Store.write c true s v w).1 = Except.error "write fault" ∧
      (Store.write c true s v w).2 = w ∧
      Store.read s (Store.write c true s v w).2 = Store.read s w) ∧
    ((Store.write c false s v w).1 = Except.ok () ∧
      (Store.write c false s v w).2.fs s.path = some (c.ser v) ∧
      Store.read s (Store.write c false s v w).2 = v) := by
  refine ⟨⟨rfl, rfl, rfl⟩, rfl, ?_, ?_⟩
  · simp [Store.write, fsWrite, fsUpdate]
  · simp [Store.write, fsWrite, Store.read, setCell]

/-- Claim C3: a successful `write(v)` followed by `read()` yields a value
equal to v (the write stores v itself in the shared cell, so this holds for
every codec). -/
theorem c3_write_read_roundtrip (T : Type) (c : Codec T) (wfault : Bool)
    (s : StoreRef) (v : T) (w : World T)
    (hok : (Store.write c wfault s v w).1 = Except.ok ()) :
    Store.read s (Store.write c wfault s v w).2 = v := by
  cases wfault with
  | true => simp [Store.write, fsWrite] at hok
  | false => simp [Store.write, fsWrite, Store.read, setCell]

/-- Witness for C3 at a concrete store, value and world. -/
theorem c3_write_read_roundtrip_witness :
    Store.read st0 (Store.write cNat false st0 7 w0).2 = 7 :=
  c3_write_read_roundtrip Nat cNat false st0 7 w0 rfl

/-- Claim C10: every clone of a Store shares the same underlying cell and the
same backing-file path as the original, so a successful write through the
clone is observed by a read through the original and symmetrically. -/
theorem c10_clone_aliasing (T : Type) (c : Codec T) (wfault : Bool)
    (s : StoreRef) (v : T) (w : World T) :
    Store.clone s = s ∧
    (Store.clone s).path = s.path ∧
    (Store.clone s).cell = s.cell ∧
    ((Store.write c wfault (Store.clone s) v w).1 = Except.ok () →
      Store.read s (Store.write c wfault (Store.clone s) v w).2 = v) ∧
    ((Store.write c wfault s v w).1 = Except.ok () →
      Store.read (Store.clone s) (Store.write c wfault s v w).2 = v) := by
  refine ⟨rfl, rfl, rfl, ?_, ?_⟩ <;>
    · intro hok
      cases wfault with
      | true => simp [Store.write, fsWrite] at hok
      | false => simp [Store.write, fsWrite, Store.read, setCell, Store.clone]

/-- Witness for C10: writing through the clone at a concrete input is read
back through the original. -/
theorem c10_clone_aliasing_witness :
    Store.read st0 (Store.write cNat false (Store.clone st0) 9 w0).2 = 9 :=
  (c10_clone_aliasing Nat cNat false st0 9 w0).2.2.2.1 rfl

/-- Claim C2: for every construction variant, if the backing file cannot be
read for any reason the seed value (default rule, synchronous getter, or
asynchronous fetch with no snapshot) is persisted to the file before the
store is returned; if the file is read successfully but its bytes cannot be
converted into T, construction fails with that deserialization error and no
seed path is taken (the result does not depend on the getter or fetcher). -/
theorem c2_construction_seed_and_deser (T : Type) (c : Codec T) (loc : PathBuf)
    (w : World T) (fresh : Nat) :
    (∀ (rfault wfault : Bool) (er : String) (getter : Unit → Except String T)
        (v0 : T) (fs2 : FileSys),
      fsRead rfault w.fs loc = Except.error er →
      getter () = Except.ok v0 →
      fsWrite wfault w.fs loc (c.ser v0) = Except.ok fs2 →
      Store.new_or_get c rfault wfault loc getter w fresh =
          Except.ok (StoreRef.mk fresh loc, World.mk fs2 (setCell w.cells fresh v0)) ∧
        fs2 loc = some (c.ser v0)) ∧
    (∀ (dflt : T) (rfault wfault : Bool),
      Store.new_with_default c dflt rfault wfault loc w fresh =
        Store.new_or_get c rfault wfault loc (fun _ => Except.ok dflt) w fresh) ∧
    (∀ (rfault wfault : Bool) (er : String)
        (fetcher : Option StoreRef → Except String T) (v0 : T) (fs2 : FileSys),
      fsRead rfault w.fs loc = Except.error er →
      fetcher none = Except.ok v0 →
      fsWrite wfault w.fs loc (c.ser v0) = Except.ok fs2 →
      Store.new_with_fetcher c rfault wfault loc fetcher w fresh =
          Except.ok (StoreRef.mk fresh loc, World.mk fs2 (setCell w.cells fresh v0)) ∧
        fs2 loc = some (c.ser v0)) ∧
    (∀ (rfault : Bool) (bytes : Bytes) (e : String),
      fsRead rfault w.fs loc = Except.ok bytes →
      c.deser bytes = Except.error e →
      (∀ (wfault : Bool) (getter : Unit → Except String T),
        Store.new_or_get c rfault wfault loc getter w fresh = Except.error e) ∧
      (∀ (wfault : Bool) (fetcher : Option StoreRef → Except String T),
        Store.new_with_fetcher c rfault wfault loc fetcher w fresh =
          Except.error e)) := by
  refine ⟨?_, ?_, ?_, ?_⟩
  · intro rfault wfault er getter v0 fs2 hread hget hwrite
    constructor
    · simp only [Store.new_or_get, hread, hget, hwrite]
    · cases wfault with
      | true => simp [fsWrite] at hwrite
      | false =>
        simp only [fsWrite, if_neg Bool.false_ne_true, Except.ok.injEq] at hwrite
        rw [← hwrite]
        simp [fsUpdate]
  · intro dflt rfault wfault
    rfl
  · intro rfault wfault er fetcher v0 fs2 hread hfetch hwrite
    constructor
    · simp only [Store.new_with_fetcher, hread, hfetch, hwrite]
    · cases wfault with
      | true => simp [fsWrite] at hwrite
      | false =>
        simp only [fsWrite, if_neg Bool.false_ne_true, Except.ok.injEq] at hwrite
        rw [← hwrite]
        simp [fsUpdate]
  · intro rfault bytes e hread hdeser
    constructor
    · intro wfault getter
      simp only [Store.new_or_get, hread, hdeser]
    · intro wfault fetcher
      simp only [Store.new_with_fetcher, hread, hdeser]

/-- Witness for C2: a read fault triggers the seed path and the seed is
persisted; a successfully read but undeserializable file fails construction
with the deserialization error. -/
theorem c2_construction_seed_and_deser_witness :
    (Store.new_or_get cNat true false "p" (fun _ => Except.ok 5) w0 0 =
        Except.ok (StoreRef.mk 0 "p",
          World.mk (fsUpdate w0.fs "p" [5]) (setCell w0.cells 0 5)) ∧
      fsUpdate w0.fs "p" [5] "p" = some [5]) ∧
    Store.new_or_get cNat false false "p" (fun _ => Except.ok 5) wBad 0 =
      Except.error "bad bytes" := by
  have h := c2_construction_seed_and_deser Nat cNat "p" w0 0
  have hbad := c2_construction_seed_and_deser Nat cNat "p" wBad 0
  refine ⟨h.1 true false "read fault" (fun _ => Except.ok 5) 5
      (fsUpdate w0.fs "p" [5]) rfl rfl rfl, ?_⟩
  exact (hbad.2.2.2 false [1, 2] "bad bytes" (by simp [fsRead, wBad]) rfl).1 false
    (fun _ => Except.ok 5)

/-- Claim C5: once any of the four triggers fires, `wait_for_shutdown` cancels
the shared signal (a no-op if already cancelled), awaits every handle in the
registry, logs each abnormal termination without stopping the wait, and
returns only after all registered tasks have been processed; the outcome is
identical for all four triggers. -/
theorem c5_wait_for_shutdown_drains_registry (co : ShutdownCoordinator)
    (trig trig2 : ShutdownTrigger) (results : Nat → Except String Unit) :
    (ShutdownCoordinator.wait_for_shutdown co trig results).tokenAfter = true ∧
    (ShutdownCoordinator.wait_for_shutdown co trig results).awaited =
      co.tasks.length ∧
    (ShutdownCoordinator.wait_for_shutdown co trig results).logged =
      (co.tasks.map results).filterMap joinErr ∧
    ShutdownCoordinator.wait_for_shutdown co trig results =
      ShutdownCoordinator.wait_for_shutdown co trig2 results ∧
    (∀ b : Bool,
      ShutdownCoordinator.wait_for_shutdown (ShutdownCoordinator.mk b co.tasks)
          trig results =
        ShutdownCoordinator.wait_for_shutdown co trig results) := by
  refine ⟨rfl, ?_, ?_, rfl, fun b => rfl⟩
  · show (awaitLoop (co.tasks.map results)).2 = co.tasks.length
    rw [awaitLoop_spec]
    simp
  · show (awaitLoop (co.tasks.map results)).1 = (co.tasks.map results).filterMap joinErr
    rw [awaitLoop_spec]

/-- Claim C6: whenever the cancellation branch of the select wins the race
against message consumption (after any number k of handled messages, and in
particular with k = 0 when the signal is cancelled before any message is
sent), the graceful-shutdown routine runs, no queued message is processed
after it, and the task terminates only after the shutdown segment. -/
theorem c6_cancellation_runs_shutdown_hook (T : Type) (queued : List T)
    (k : Nat) (res : Except String Unit) :
    actorTask queued (some k) res =
      (queued.take k).map Event.handle ++ Event.shutdownRun :: shutdownTail T res ∧
    handledMsgs (Event.shutdownRun :: shutdownTail T res) = [] ∧
    (∃ front : List (Event T),
      Event.shutdownRun :: shutdownTail T res = front ++ [Event.terminate] ∧
        Event.shutdownRun ∈ front) ∧
    Event.terminate ∉ (queued.take k).map Event.handle := by
  refine ⟨rfl, handledMsgs_shutdownTail res, ?_, ?_⟩
  · cases res with
    | error e =>
      exact ⟨[Event.shutdownRun, Event.logError e], rfl, by simp⟩
    | ok u =>
      exact ⟨[Event.shutdownRun], rfl, by simp⟩
  · intro hmem
    rcases List.mem_map.mp hmem with ⟨m, hm, he⟩
    exact Event.noConfusion he

/-- Claim C4, counterexample: a fetch failure inside the `scheduled_updates`
loop is not logged and swallowed — the `todo!()` branch (simple_store.rs:117)
panics, aborting the background task at this concrete input. -/
theorem c4_counterexample :
    scheduledUpdateStep cNat false st0 w0 (fun _ => Except.error "boom") =
      StepResult.panicked := rfl

/-- Claim C4, amended: an actor's graceful-shutdown-routine failure is logged
and swallowed and the task still terminates; but a fetch or write failure
inside the `scheduled_updates` loop reaches the unimplemented branch and
panics the task instead of being logged and swallowed. -/
theorem c4_amended_background_errors (T U : Type) (queued : List T) (k : Nat)
    (e : String) (c : Codec U) (wfault : Bool) (s : StoreRef) (w : World U)
    (fetcher : Option StoreRef → Except String U) :
    (Event.logError e ∈ actorTask queued (some k) (Except.error e) ∧
      (∃ front : List (Event T),
        actorTask queued (some k) (Except.error e) =
          front ++ [Event.terminate])) ∧
    ((∀ e2 : String, fetcher (some (Store.clone s)) = Except.error e2 →
        scheduledUpdateStep c wfault s w fetcher = StepResult.panicked) ∧
      (∀ (v : U) (e3 : String), fetcher (some (Store.clone s)) = Except.ok v →
        (Store.write c wfault s v w).1 = Except.error e3 →
        scheduledUpdateStep c wfault s w fetcher = StepResult.panicked)) := by
  refine ⟨⟨?_, ?_⟩, ?_, ?_⟩
  · simp [actorTask, shutdownTail, run_actorTrace]
  · refine ⟨(queued.take k).map Event.handle ++
      [Event.shutdownRun, Event.logError e], ?_⟩
    simp [actorTask, shutdownTail, run_actorTrace]
  · intro e2 hfetch
    simp [scheduledUpdateStep, hfetch]
  · intro v e3 hfetch hw
    rcases hsw : Store.write c wfault s v w with ⟨r, w2⟩
    rw [hsw] at hw
    simp only at hw
    subst hw
    simp [scheduledUpdateStep, hfetch, hsw]

/-- Witness for the amended C4 at concrete inputs: the logged shutdown-hook
failure, and a panicking refresh iteration. -/
theorem c4_amended_background_errors_witness :
    Event.logError "hook failed" ∈
      actorTask ([3] : List Nat) (some 0) (Except.error "hook failed") ∧
    scheduledUpdateStep cNat false st0 w0
        (fun _ => Except.error "fetch failed") =
      StepResult.panicked := by
  have h := c4_amended_background_errors Nat Nat [3] 0 "hook failed" cNat false
    st0 w0 (fun _ => Except.error "fetch failed")
  exact ⟨h.1.1, h.2.1 "fetch failed" rfl⟩

/-- Claim C7: `send(msg)` suspends the caller exactly while the queue holds 8
unconsumed messages and the consumer is alive, resuming once a slot frees or
the consumer disappears; when it completes with a live consumer it appends
the message, and when the consumer end has already closed it drops the
message silently (state unchanged, inner send error discarded, call returns
normally). -/
theorem c7_send_backpressure_and_drop (T : Type) (ch : Channel T) (msg : T) :
    (ch.consumerClosed = false → ch.queue.length = actorChannelCapacity →
      sendBlocks ch = true) ∧
    (sendBlocks ch = true ↔
      (ch.consumerClosed = false ∧ actorChannelCapacity ≤ ch.queue.length)) ∧
    (ch.consumerClosed = false → ch.queue.length < actorChannelCapacity →
      ActorHandle.send ch msg = (Channel.mk (ch.queue ++ [msg]) false, ())) ∧
    (ch.consumerClosed = true →
      ActorHandle.send ch msg = (ch, ()) ∧
      mpscSend ch msg = Except.error msg ∧
      sendBlocks ch = false) := by
  refine ⟨?_, ?_, ?_, ?_⟩
  · intro hopen hfull
    simp [sendBlocks, hopen, hfull]
  · simp [sendBlocks, Bool.and_eq_true, Bool.not_eq_true', decide_eq_true_eq]
  · intro hopen hroom
    simp [ActorHandle.send, mpscSend, hopen]
  · intro hclosed
    refine ⟨?_, ?_, ?_⟩
    · simp [ActorHandle.send, mpscSend, hclosed]
    · simp [mpscSend, hclosed]
    · simp [sendBlocks, hclosed]

/-- Witness for C7: a full queue with a live consumer blocks; a queue with a
free slot accepts the message; a closed consumer end drops it silently. -/
theorem c7_send_backpressure_and_drop_witness :
    sendBlocks (Channel.mk ([1, 2, 3, 4, 5, 6, 7, 8] : List Nat) false) = true ∧
    ActorHandle.send (Channel.mk ([1, 2, 3] : List Nat) false) 4 =
      (Channel.mk [1, 2, 3, 4] false, ()) ∧
    ActorHandle.send (Channel.mk ([1, 2, 3] : List Nat) true) 4 =
      (Channel.mk [1, 2, 3] true, ()) := by
  have h1 := c7_send_backpressure_and_drop Nat
    (Channel.mk [1, 2, 3, 4, 5, 6, 7, 8] false) 0
  have h2 := c7_send_backpressure_and_drop Nat (Channel.mk [1, 2, 3] false) 4
  have h3 := c7_send_backpressure_and_drop Nat (Channel.mk [1, 2, 3] true) 4
  exact ⟨h1.1 rfl (by decide), h2.2.2.1 rfl (by decide), (h3.2.2.2 rfl).1⟩

/-- Claim C8: `ActorHandle::spawn` creates a bounded queue of fixed capacity
8, invokes the factory with the consumer end of that same queue and a clone
of the actor's own handle, registers the launched task with the coordinator
(appending it to the registry, signal state untouched), and returns the
send-capable handle over the queue's producer end. -/
theorem c8_spawn_wires_actor (T A : Type)
    (mk_actor : Receiver T → ActorHandle T → A)
    (shutdown : ShutdownCoordinator) (freshChan freshTask : Nat) :
    (ActorHandle.spawn mk_actor shutdown freshChan freshTask).1.sender =
      Sender.mk freshChan 8 ∧
    (ActorHandle.spawn mk_actor shutdown freshChan freshTask).1.sender.capacity =
      actorChannelCapacity ∧
    (ActorHandle.spawn mk_actor shutdown freshChan freshTask).2.1 =
      mk_actor (Receiver.mk freshChan 8)
        (ActorHandle.clone (ActorHandle.mk (Sender.mk freshChan 8))) ∧
    (ActorHandle.spawn mk_actor shutdown freshChan freshTask).2.2.tasks =
      shutdown.tasks ++ [freshTask] ∧
    (ActorHandle.spawn mk_actor shutdown freshChan freshTask).2.2.tokenCancelled =
      shutdown.tokenCancelled ∧
    (ActorHandle.clone (ActorHandle.mk (T := T) (Sender.mk freshChan 8))).sender.chan =
      (ActorHandle.spawn mk_actor shutdown freshChan freshTask).1.sender.chan :=
  ⟨rfl, rfl, rfl, rfl, rfl, rfl⟩

/-- Claim C9, counterexample: one message is sent before cancellation
(queue holds it), yet when the cancellation branch of the select wins the
race the message is never delivered to the consumption routine — it is not
delivered exactly once. -/
theorem c9_counterexample :
    handledMsgs (actorTask ([0] : List Nat) (some 0) (Except.ok ())) = [] ∧
    actorTask ([0] : List Nat) (some 0) (Except.ok ()) =
      [Event.shutdownRun, Event.terminate] :=
  ⟨rfl, rfl⟩

/-- Claim C9, amended: for any sequence of at most 8 messages sent before
cancellation, the delivered messages form a prefix of the send order — each
delivered at most once, in order, and all of them before the
shutdown-triggered preemption; messages still queued when cancellation wins
the race are discarded, and when the consume loop is never preempted every
message is delivered exactly once in send order. -/
theorem c9_amended_prefix_delivery (T : Type) (queued : List T) (k : Nat)
    (res : Except String Unit)
    (hcap : queued.length ≤ actorChannelCapacity) :
    handledMsgs (actorTask queued (some k) res) = queued.take k ∧
    handledMsgs (actorTask queued none res) = queued ∧
    actorTask queued (some k) res =
      (queued.take k).map Event.handle ++
        Event.shutdownRun :: shutdownTail T res ∧
    handledMsgs (Event.shutdownRun :: shutdownTail T res) = [] := by
  refine ⟨?_, ?_, rfl, handledMsgs_shutdownTail res⟩
  · show handledMsgs ((queued.take k).map Event.handle ++
      Event.shutdownRun :: shutdownTail T res) = queued.take k
    rw [handledMsgs_append, handledMsgs_map_handle, handledMsgs_shutdownTail,
      List.append_nil]
  · show handledMsgs (queued.map Event.handle ++ [Event.terminate]) = queued
    rw [handledMsgs_append, handledMsgs_map_handle]
    simp [handledMsgs]

/-- Witness for the amended C9 at a concrete two-message queue. -/
theorem c9_amended_prefix_delivery_witness :
    handledMsgs (actorTask ([10, 20] : List Nat) (some 1) (Except.ok ())) =
      [10] ∧
    handledMsgs (actorTask ([10, 20] : List Nat) none (Except.ok ())) =
      [10, 20] := by
  have h := c9_amended_prefix_delivery Nat [10, 20] 1 (Except.ok ())
    (by decide)
  exact ⟨h.1, h.2.1⟩

end KitchenSink
